import Mathlib

/-!
Verification development for the httpbin client (src/httpbin/client.py).

The Python source is shallowly embedded: the transport call of a single
Client.get() invocation is modelled by its outcome (an exception raised by
the transport, or an HTTP response), and get() itself becomes a pure
function from that outcome to the observable result of the call (a
validated GetResponse, one of the three client exceptions, or an exception
that escapes the except clauses unwrapped).

Python exception classes relevant to the code are enumerated, together
with the subclass facts the except clauses depend on:
  - builtin TimeoutError and ConnectionError (and the ConnectionRefusedError
    subclass of the latter) are what line 123 catches; the httpx exception
    hierarchy (ConnectError, TimeoutException, HTTPStatusError, all below
    httpx.HTTPError) is disjoint from the builtins, so none of them is
    caught there;
  - httpx.HTTPStatusError, raised by response.raise_for_status() for any
    non-2xx status, is below httpx.HTTPError and is caught at line 129;
  - json.JSONDecodeError (below ValueError) raised by response.json() on a
    malformed body, and TypeError raised by the ** unpacking of a non-dict,
    are not pydantic ValidationError and are not caught at line 135.

GetResponse validation embeds pydantic v1 semantics for the model with the
single field origin of type ipaddress.IPv4Address: extra keyword arguments
are ignored, a missing field is a ValidationError, and the IPv4Address
validator accepts a dotted-quad string (pythons ipaddress grammar: exactly
four octets, each 1-3 decimal digits, no leading zero, value at most 255),
a non-negative int below 2^32, or a bool (a subclass of int in Python).

Config embeds pydantic v1 BaseSettings resolution for the single field
base_url (type str, default https://httpbin.org, env_prefix HTTPBIN_):
explicit constructor argument, else the environment variable
HTTPBIN_BASE_URL, else the default. The str type performs no URL parsing.
-/

namespace Httpbin

/-- JSON values reachable from response.json(): the Python values produced
by json.loads restricted to the shapes the claims exercise (floats omitted;
no claim touches them). -/
inductive JValue where
  | str (s : String)
  | int (n : Int)
  | bool (b : Bool)
  | null
  | arr (xs : List JValue)
  | obj (fields : List (String × JValue))

/-- An IPv4 address as four octets, the value held by ipaddress.IPv4Address. -/
structure IPv4 where
  o1 : Nat
  o2 : Nat
  o3 : Nat
  o4 : Nat
  deriving DecidableEq

/-- Each octet fits in a byte. -/
def IPv4.validB (ip : IPv4) : Bool :=
  ip.o1 < 256 && ip.o2 < 256 && ip.o3 < 256 && ip.o4 < 256

/-- str(ipaddress.IPv4Address(...)): dotted-quad rendering. -/
def IPv4.render (ip : IPv4) : String :=
  Nat.repr ip.o1 ++ "." ++ Nat.repr ip.o2 ++ "." ++ Nat.repr ip.o3 ++ "." ++ Nat.repr ip.o4

/-- Decimal digit value of a character, as used by ipaddress octet parsing
(only ASCII digits are accepted). -/
def digitVal (c : Char) : Option Nat :=
  if '0' ≤ c && c ≤ '9' then some (c.toNat - 48) else none

/-- Value of a list of decimal digit characters, none if any is not a digit. -/
def digitsVal : List Char → Option Nat
  | [] => some 0
  | c :: cs =>
    match digitVal c, digitsVal cs with
    | some d, some n => some (d * 10 ^ cs.length + n)
    | _, _ => none

/-- Python str.split on the dot character. -/
def splitOnDot : List Char → List (List Char)
  | [] => [[]]
  | c :: rest =>
    match splitOnDot rest, c == '.' with
    | r, true => [] :: r
    | [], false => [[c]]
    | g :: gs, false => (c :: g) :: gs

/-- ipaddress._parse_octet: 1 to 3 ASCII decimal digits, no leading zero
unless the octet is exactly 0, value at most 255. -/
def parseOctet (cs : List Char) : Option Nat :=
  if cs.length = 0 || cs.length > 3 then none
  else
    match digitsVal cs with
    | none => none
    | some n =>
      if cs.length > 1 && cs.headD ' ' == '0' then none
      else if n ≤ 255 then some n else none

/-- ipaddress.IPv4Address applied to a string: split on dots, require
exactly four octets, parse each. -/
def parseIPv4String (s : String) : Option IPv4 :=
  match splitOnDot s.data with
  | [a, b, c, d] =>
    match parseOctet a, parseOctet b, parseOctet c, parseOctet d with
    | some x, some y, some z, some w => some ⟨x, y, z, w⟩
    | _, _, _, _ => none
  | _ => none

/-- ipaddress.IPv4Address applied to an int below 2^32: big-endian bytes. -/
def ipv4OfNat (n : Nat) : IPv4 :=
  ⟨n / 2 ^ 24 % 256, n / 2 ^ 16 % 256, n / 2 ^ 8 % 256, n % 256⟩

/-- The pydantic v1 IPv4Address field validator: accepts a dotted-quad
string, a non-negative int below 2^32, or a bool (bool is a subclass of
int in Python, so True validates as 1 and False as 0); every other JSON
value fails validation. -/
def parseOrigin : JValue → Option IPv4
  | JValue.str s => parseIPv4String s
  | JValue.int n => if 0 ≤ n && n < 4294967296 then some (ipv4OfNat n.toNat) else none
  | JValue.bool b => some (ipv4OfNat (if b then 1 else 0))
  | _ => none

/-- The validated response model: GetResponse keeps only the origin field
(src/httpbin/client.py lines 40-73). -/
structure GetResponse where
  origin : IPv4
  deriving DecidableEq

/-- The cause carried by a pydantic ValidationError for this model. -/
inductive ValErr where
  | missingOrigin
  | invalidOrigin (v : JValue)

/-- Lookup of a key in a JSON object: json.loads builds a Python dict, in
which a duplicated key keeps the last value, so the last binding wins. -/
def lookupField (fields : List (String × JValue)) (k : String) : Option JValue :=
  match fields with
  | [] => none
  | (key, v) :: rest =>
    match lookupField rest k with
    | some w => some w
    | none => if key = k then some v else none

/-- GetResponse(**fields) under pydantic v1: extra keys are ignored
(default Extra.ignore), a missing origin or an origin rejected by the
IPv4Address validator raises ValidationError, otherwise the model holds
the parsed address. -/
def getResponseValidate (fields : List (String × JValue)) : Except ValErr GetResponse :=
  match lookupField fields "origin" with
  | none => Except.error ValErr.missingOrigin
  | some v =>
    match parseOrigin v with
    | some ip => Except.ok ⟨ip⟩
    | none => Except.error (ValErr.invalidOrigin v)

/-- The Python exception classes the code can see. -/
inductive ExcClass where
  | timeoutError           -- builtin TimeoutError
  | connectionError        -- builtin ConnectionError
  | connectionRefusedError -- builtin, subclass of ConnectionError
  | osError                -- builtin OSError, superclass of the two above
  | httpxConnectError      -- httpx.ConnectError, below httpx.HTTPError
  | httpxTimeoutException  -- httpx.TimeoutException, below httpx.HTTPError
  | httpxHTTPStatusError   -- httpx.HTTPStatusError, below httpx.HTTPError
  | jsonDecodeError        -- json.JSONDecodeError, below ValueError
  | typeError              -- builtin TypeError
  | pydanticValidationError
  deriving DecidableEq

/-- A raised Python exception: its class and its message. -/
structure PyExc where
  cls : ExcClass
  msg : String
  deriving DecidableEq

/-- Which classes the clause except (TimeoutError, ConnectionError) at
src/httpbin/client.py line 123 catches: those two builtins and their
subclasses. The httpx transport exceptions descend from httpx.HTTPError,
which is unrelated to the builtin OSError hierarchy, so none of them
matches. -/
def caughtByNetClause : ExcClass → Bool
  | ExcClass.timeoutError => true
  | ExcClass.connectionError => true
  | ExcClass.connectionRefusedError => true
  | _ => false

/-- What response.json() does: either the body is not valid JSON and a
json.JSONDecodeError is raised, or it yields a JSON value. -/
inductive BodyJson where
  | malformed
  | value (v : JValue)

/-- An HTTP response as the code observes it: status code and body. -/
structure HttpResponse where
  status : Nat
  body : BodyJson

/-- Outcome of the transport call self._http.get(url="/get"): an exception
raised by the transport, or a response. -/
inductive TransportOutcome where
  | raises (e : PyExc)
  | responds (r : HttpResponse)

/-- Observable result of one Client.get() call: the returned model, one of
the three client exceptions (each wrapping its cause), or an exception
that escaped every except clause unwrapped. StatusError wraps the
httpx.HTTPStatusError whose response carries the original status code. -/
inductive GetOutcome where
  | ok (r : GetResponse)
  | networkError (cause : PyExc)
  | statusError (originalStatus : Nat)
  | responseError (cause : ValErr)
  | uncaught (e : PyExc)

/-- httpx Response.raise_for_status() raises httpx.HTTPStatusError exactly
when the status is not a 2xx success. -/
def raiseForStatusFails (status : Nat) : Bool :=
  !(200 ≤ status && status ≤ 299)

/-- Client.get() (src/httpbin/client.py lines 117-136) as a function of the
transport outcome.
  - try self._http.get: an exception whose class matches
    (TimeoutError, ConnectionError) is re-raised as NetworkError wrapping
    it; any other exception propagates unwrapped.
  - try response.raise_for_status(): httpx.HTTPStatusError is below
    httpx.HTTPError, so a non-2xx status always becomes StatusError.
  - try GetResponse(**response.json()): a malformed body raises
    json.JSONDecodeError and a non-object body makes ** raise TypeError,
    neither of which is a pydantic ValidationError, so both propagate
    unwrapped; a ValidationError becomes ResponseError. -/
def clientGet (t : TransportOutcome) : GetOutcome :=
  match t with
  | TransportOutcome.raises e =>
    if caughtByNetClause e.cls then GetOutcome.networkError e else GetOutcome.uncaught e
  | TransportOutcome.responds resp =>
    if raiseForStatusFails resp.status then GetOutcome.statusError resp.status
    else
      match resp.body with
      | BodyJson.malformed => GetOutcome.uncaught ⟨ExcClass.jsonDecodeError, "Expecting value"⟩
      | BodyJson.value (JValue.obj fields) =>
        match getResponseValidate fields with
        | Except.ok r => GetOutcome.ok r
        | Except.error ve => GetOutcome.responseError ve
      | BodyJson.value _ => GetOutcome.uncaught ⟨ExcClass.typeError, "argument after ** must be a mapping"⟩

/-- The three checkpoints of get(). -/
inductive Checkpoint where
  | transport
  | status
  | schema
  deriving DecidableEq

/-- Client.get() instrumented with the list of checkpoints a call reaches,
in the order the code runs them. -/
def clientGetTrace (t : TransportOutcome) : GetOutcome × List Checkpoint :=
  match t with
  | TransportOutcome.raises e =>
    ((if caughtByNetClause e.cls then GetOutcome.networkError e else GetOutcome.uncaught e),
      [Checkpoint.transport])
  | TransportOutcome.responds resp =>
    if raiseForStatusFails resp.status then
      (GetOutcome.statusError resp.status, [Checkpoint.transport, Checkpoint.status])
    else
      ((match resp.body with
        | BodyJson.malformed => GetOutcome.uncaught ⟨ExcClass.jsonDecodeError, "Expecting value"⟩
        | BodyJson.value (JValue.obj fields) =>
          match getResponseValidate fields with
          | Except.ok r => GetOutcome.ok r
          | Except.error ve => GetOutcome.responseError ve
        | BodyJson.value _ => GetOutcome.uncaught ⟨ExcClass.typeError, "argument after ** must be a mapping"⟩),
        [Checkpoint.transport, Checkpoint.status, Checkpoint.schema])

/-- True exactly when the outcome is a return or one of the three client
error kinds; false when an exception escaped unwrapped. -/
def GetOutcome.classified : GetOutcome → Bool
  | GetOutcome.uncaught _ => false
  | _ => true

/-- Process environment, as a list of variable bindings. -/
def Env := List (String × String)

/-- Lookup of a variable in the environment (first binding wins, as in
os.environ where keys are unique). -/
def envLookup (env : Env) (k : String) : Option String :=
  match env with
  | [] => none
  | (key, v) :: rest => if key = k then some v else envLookup rest k

/-- The Config settings model (src/httpbin/client.py lines 78-102): one
field base_url of plain type str with default https://httpbin.org. -/
structure Config where
  base_url : String
  deriving DecidableEq

/-- pydantic v1 BaseSettings resolution for base_url with env_prefix
HTTPBIN_: an explicit constructor argument wins, else the environment
variable HTTPBIN_BASE_URL, else the field default. The field type is str,
so any string is accepted as-is with no URL parsing. -/
def mkConfig (explicit : Option String) (env : Env) : Config :=
  match explicit with
  | some v => ⟨v⟩
  | none =>
    match envLookup env "HTTPBIN_BASE_URL" with
    | some v => ⟨v⟩
    | none => ⟨"https://httpbin.org"⟩

/-- Splits a character list at the first occurrence of the scheme
separator ://, if any, returning what stands before and after it. -/
def splitAtSchemeSep : List Char → Option (List Char × List Char)
  | [] => none
  | ':' :: '/' :: '/' :: rest => some ([], rest)
  | c :: rest =>
    match splitAtSchemeSep rest with
    | some (pre, post) => some (c :: pre, post)
    | none => none

/-- Modelled from the spec: the spec contract that base_url must parse as
an absolute URL (section 4.1); there is no URL check anywhere in the
source. An absolute URL here is a string with a scheme, i.e. containing
the separator :// with a nonempty alphabetic scheme before it. -/
def specIsAbsoluteUrl (s : String) : Bool :=
  match splitAtSchemeSep s.data with
  | some (scheme, _) => scheme.length > 0 && scheme.all Char.isAlpha
  | none => false

/-! Helper lemmas shared by the claim theorems. -/

/-- Looking up a key in a concatenated object: the later fields win. -/
theorem lookupField_append (l1 l2 : List (String × JValue)) (k : String) :
    lookupField (l1 ++ l2) k =
      match lookupField l2 k with
      | some w => some w
      | none => lookupField l1 k := by
  induction l1 with
  | nil => cases h : lookupField l2 k <;> simp [lookupField, h]
  | cons p rest ih =>
    obtain ⟨key, v⟩ := p
    show (match lookupField (rest ++ l2) k with
        | some w => some w
        | none => if key = k then some v else none) =
      match lookupField l2 k with
      | some w => some w
      | none => lookupField ((key, v) :: rest) k
    rw [ih]
    cases lookupField l2 k <;> rfl

/-- A key bound by no field of an object is not found. -/
theorem lookupField_none (l : List (String × JValue)) (k : String)
    (h : ∀ p ∈ l, p.1 ≠ k) : lookupField l k = none := by
  induction l with
  | nil => rfl
  | cons p rest ih =>
    obtain ⟨key, v⟩ := p
    have hk : key ≠ k := h (key, v) (List.mem_cons_self _ _)
    have hr : lookupField rest k = none :=
      ih (fun q hq => h q (List.mem_cons_of_mem _ hq))
    simp [lookupField, hr, hk]

/-- A parsed octet is a byte. -/
theorem parseOctet_lt (cs : List Char) (n : Nat) (h : parseOctet cs = some n) :
    n < 256 := by
  unfold parseOctet at h
  split at h
  · exact absurd h (by simp)
  · split at h
    · exact absurd h (by simp)
    · split at h
      · exact absurd h (by simp)
      · split at h
        · cases h
          omega
        · exact absurd h (by simp)

/-- Every address built from an int has byte-sized octets. -/
theorem ipv4OfNat_valid (n : Nat) : (ipv4OfNat n).validB = true := by
  simp only [ipv4OfNat, IPv4.validB, Bool.and_eq_true, decide_eq_true_eq]
  omega

/-- Whatever JSON value the origin validator accepts, the address it
produces has four byte-sized octets. -/
theorem parseOrigin_valid (v : JValue) (ip : IPv4) (h : parseOrigin v = some ip) :
    ip.validB = true := by
  cases v with
  | str s =>
    simp only [parseOrigin, parseIPv4String] at h
    split at h
    · split at h
      · rename_i a b c d x y z w ha hb hc hd
        cases h
        simp only [IPv4.validB, Bool.and_eq_true, decide_eq_true_eq]
        exact ⟨⟨⟨parseOctet_lt _ _ ha, parseOctet_lt _ _ hb⟩,
          parseOctet_lt _ _ hc⟩, parseOctet_lt _ _ hd⟩
      · exact absurd h (by simp)
    · exact absurd h (by simp)
  | int n =>
    simp only [parseOrigin] at h
    split at h
    · cases h; exact ipv4OfNat_valid _
    · exact absurd h (by simp)
  | bool b =>
    simp only [parseOrigin] at h
    cases h; exact ipv4OfNat_valid _
  | null => exact absurd h (by simp [parseOrigin])
  | arr xs => exact absurd h (by simp [parseOrigin])
  | obj fields => exact absurd h (by simp [parseOrigin])

/-! Claim theorems. -/

/-- C1: evaluation of Client.get() at transport failures. The builtin
TimeoutError and ConnectionError (the classes the tests inject) are
wrapped as NetworkError, but a transport fault surfaced as
httpx.ConnectError — how httpx actually reports connection refused and
DNS failure — escapes get() unwrapped, contradicting the claim that no
transport failure escapes as anything other than a NetworkError. -/
theorem C1_transport_fault_classification :
    clientGet (TransportOutcome.raises ⟨ExcClass.timeoutError, "timed out"⟩)
      = GetOutcome.networkError ⟨ExcClass.timeoutError, "timed out"⟩ ∧
    clientGet (TransportOutcome.raises ⟨ExcClass.connectionRefusedError, "refused"⟩)
      = GetOutcome.networkError ⟨ExcClass.connectionRefusedError, "refused"⟩ ∧
    clientGet (TransportOutcome.raises ⟨ExcClass.httpxConnectError, "name resolution failed"⟩)
      = GetOutcome.uncaught ⟨ExcClass.httpxConnectError, "name resolution failed"⟩ ∧
    (clientGet (TransportOutcome.raises ⟨ExcClass.httpxConnectError, "name resolution failed"⟩)).classified
      = false :=
  ⟨rfl, rfl, rfl, rfl⟩

/-- C2 counterexample: a success status with a body that is not valid JSON
makes get() propagate the json.JSONDecodeError unwrapped — the call does
not raise ResponseError (nor any other client error kind), refuting the
claim that no parse failure escapes get() as any other kind of error. -/
theorem C2_counterexample_parse_failure_escapes :
    clientGet (TransportOutcome.responds ⟨200, BodyJson.malformed⟩)
      = GetOutcome.uncaught ⟨ExcClass.jsonDecodeError, "Expecting value"⟩ ∧
    (clientGet (TransportOutcome.responds ⟨200, BodyJson.malformed⟩)).classified = false :=
  ⟨rfl, rfl⟩

/-- C2 amended: for every response with a success status whose body parses
as a JSON object but fails GetResponse validation (missing origin, or an
origin the IPv4Address validator rejects), get() raises ResponseError
wrapping that validation error; a body that is not valid JSON escapes as
the unwrapped parse error instead. -/
theorem C2_schema_mismatch_raises_responseError (status : Nat)
    (fields : List (String × JValue)) (ve : ValErr)
    (h2 : 200 ≤ status) (h3 : status ≤ 299)
    (hv : getResponseValidate fields = Except.error ve) :
    clientGet (TransportOutcome.responds ⟨status, BodyJson.value (JValue.obj fields)⟩)
      = GetOutcome.responseError ve := by
  have hs : raiseForStatusFails status = false := by
    simp [raiseForStatusFails, h2, h3]
  simp [clientGet, hs, hv]

/-- C2 witness: both spec examples, the empty body object and the origin
value that is not an IP address, raise ResponseError at status 200. -/
theorem C2_schema_mismatch_witness :
    clientGet (TransportOutcome.responds ⟨200, BodyJson.value (JValue.obj [])⟩)
      = GetOutcome.responseError ValErr.missingOrigin ∧
    clientGet (TransportOutcome.responds
        ⟨200, BodyJson.value (JValue.obj [("origin", JValue.str "not-an-ip")])⟩)
      = GetOutcome.responseError (ValErr.invalidOrigin (JValue.str "not-an-ip")) :=
  ⟨C2_schema_mismatch_raises_responseError 200 [] ValErr.missingOrigin
      (by decide) (by decide) rfl,
    C2_schema_mismatch_raises_responseError 200 [("origin", JValue.str "not-an-ip")]
      (ValErr.invalidOrigin (JValue.str "not-an-ip")) (by decide) (by decide) rfl⟩

/-- C3: whenever the transport call succeeded and the response status is in
the 4xx or 5xx range, get() raises StatusError, and the wrapped
httpx.HTTPStatusError carries the original status code, which is therefore
recoverable from the raised error. -/
theorem C3_bad_status_raises_statusError (resp : HttpResponse)
    (h4 : 400 ≤ resp.status) (h5 : resp.status ≤ 599) :
    clientGet (TransportOutcome.responds resp) = GetOutcome.statusError resp.status := by
  have hs : raiseForStatusFails resp.status = true := by
    simp only [raiseForStatusFails, Bool.not_eq_true', Bool.and_eq_false_iff,
      decide_eq_false_iff_not]
    omega
  simp [clientGet, hs]

/-- C3 witness: the two statuses named by the spec, 400 and 500, raise
StatusError carrying those statuses, whatever the body holds. -/
theorem C3_bad_status_witness :
    clientGet (TransportOutcome.responds ⟨400, BodyJson.value (JValue.obj [])⟩)
      = GetOutcome.statusError 400 ∧
    clientGet (TransportOutcome.responds ⟨500, BodyJson.malformed⟩)
      = GetOutcome.statusError 500 :=
  ⟨C3_bad_status_raises_statusError ⟨400, BodyJson.value (JValue.obj [])⟩
      (by decide) (by decide),
    C3_bad_status_raises_statusError ⟨500, BodyJson.malformed⟩ (by decide) (by decide)⟩

/-- C10: a payload whose origin is the JSON integer 3232235521 — not a
string at all — passes GetResponse validation (pydantic delegates to
ipaddress.IPv4Address, which accepts ints below 2^32), and a 200 response
with that body makes get() return the Result 192.168.0.1 instead of
raising ResponseError: the schema gate accepts strictly more than
syntactically valid IPv4 address strings. -/
theorem C10_int_origin_accepted :
    getResponseValidate [("origin", JValue.int 3232235521)]
      = Except.ok ⟨⟨192, 168, 0, 1⟩⟩ ∧
    clientGet (TransportOutcome.responds
        ⟨200, BodyJson.value (JValue.obj [("origin", JValue.int 3232235521)])⟩)
      = GetOutcome.ok ⟨⟨192, 168, 0, 1⟩⟩ ∧
    (⟨⟨192, 168, 0, 1⟩⟩ : GetResponse).origin.render = "192.168.0.1" :=
  ⟨rfl, rfl, rfl⟩

/-- C4 counterexample: a transport fault surfaced as
httpx.TimeoutException escapes get() unwrapped, so this call neither
returns a valid Result nor raises one of NetworkError, StatusError,
ResponseError — refuting the claim that every call does one of the two. -/
theorem C4_counterexample_uncaught_escape :
    clientGet (TransportOutcome.raises ⟨ExcClass.httpxTimeoutException, "timed out"⟩)
      = GetOutcome.uncaught ⟨ExcClass.httpxTimeoutException, "timed out"⟩ ∧
    (clientGet (TransportOutcome.raises ⟨ExcClass.httpxTimeoutException, "timed out"⟩)).classified
      = false :=
  ⟨rfl, rfl⟩

/-- C4 amended: the three checkpoints run in strict order and a later
checkpoint is never reached when an earlier one fails — in particular a
transport-level failure means no status or schema check runs — and each
call yields exactly one outcome: a valid Result, exactly one of
NetworkError, StatusError, ResponseError, or a single exception escaping
unwrapped. The instrumented clientGetTrace agrees with clientGet and
records which checkpoints a call reaches. -/
theorem C4_checkpoint_order (t : TransportOutcome) :
    (clientGetTrace t).1 = clientGet t ∧
    ((clientGetTrace t).2 = [Checkpoint.transport] ∨
      (clientGetTrace t).2 = [Checkpoint.transport, Checkpoint.status] ∨
      (clientGetTrace t).2 = [Checkpoint.transport, Checkpoint.status, Checkpoint.schema]) ∧
    (∀ e, t = TransportOutcome.raises e → (clientGetTrace t).2 = [Checkpoint.transport]) ∧
    (∀ o1 o2 : GetOutcome, clientGet t = o1 → clientGet t = o2 → o1 = o2) := by
  refine ⟨?_, ?_, ?_, ?_⟩
  · cases t with
    | raises e => rfl
    | responds resp =>
      simp only [clientGetTrace, clientGet]
      split <;> rfl
  · cases t with
    | raises e => exact Or.inl rfl
    | responds resp =>
      simp only [clientGetTrace]
      split
      · exact Or.inr (Or.inl rfl)
      · exact Or.inr (Or.inr rfl)
  · intro e he
    subst he
    rfl
  · intro o1 o2 h1 h2
    rw [← h1, ← h2]

/-- C4 witness: at a concrete transport failure only the transport
checkpoint runs, and the instrumented run agrees with get(). -/
theorem C4_checkpoint_order_witness :
    (clientGetTrace (TransportOutcome.raises ⟨ExcClass.timeoutError, "timed out"⟩)).2
      = [Checkpoint.transport] ∧
    (clientGetTrace (TransportOutcome.raises ⟨ExcClass.timeoutError, "timed out"⟩)).1
      = clientGet (TransportOutcome.raises ⟨ExcClass.timeoutError, "timed out"⟩) :=
  ⟨(C4_checkpoint_order (TransportOutcome.raises ⟨ExcClass.timeoutError, "timed out"⟩)).2.2.1
      ⟨ExcClass.timeoutError, "timed out"⟩ rfl,
    (C4_checkpoint_order (TransportOutcome.raises ⟨ExcClass.timeoutError, "timed out"⟩)).1⟩

/-- C5: Config resolution follows the precedence explicit constructor
argument, else the environment variable HTTPBIN_BASE_URL (the fixed
HTTPBIN_ env_prefix applied to the field name), else the default
https://httpbin.org — for all four present/absent combinations. -/
theorem C5_config_precedence (explicit : Option String) (env : Env) :
    (∀ v, explicit = some v → (mkConfig explicit env).base_url = v) ∧
    (explicit = none → ∀ w, envLookup env "HTTPBIN_BASE_URL" = some w →
      (mkConfig explicit env).base_url = w) ∧
    (explicit = none → envLookup env "HTTPBIN_BASE_URL" = none →
      (mkConfig explicit env).base_url = "https://httpbin.org") := by
  refine ⟨?_, ?_, ?_⟩
  · intro v hv
    subst hv
    rfl
  · intro he w hw
    subst he
    simp [mkConfig, hw]
  · intro he hw
    subst he
    simp [mkConfig, hw]

/-- C5 witness: the four concrete combinations of explicit argument and
environment variable resolve as the precedence dictates. -/
theorem C5_config_precedence_witness :
    (mkConfig (some "https://explicit.url") [("HTTPBIN_BASE_URL", "https://env.url")]).base_url
      = "https://explicit.url" ∧
    (mkConfig (some "https://explicit.url") []).base_url = "https://explicit.url" ∧
    (mkConfig none [("HTTPBIN_BASE_URL", "https://env.url")]).base_url = "https://env.url" ∧
    (mkConfig none []).base_url = "https://httpbin.org" :=
  ⟨(C5_config_precedence (some "https://explicit.url")
      [("HTTPBIN_BASE_URL", "https://env.url")]).1 _ rfl,
    (C5_config_precedence (some "https://explicit.url") []).1 _ rfl,
    (C5_config_precedence none [("HTTPBIN_BASE_URL", "https://env.url")]).2.1 rfl _ rfl,
    (C5_config_precedence none []).2.2 rfl rfl⟩

/-- C6 counterexample: the base_url field has the plain type str, so
Config construction performs no URL parsing at all: with the explicit
argument not-a-url — which is not an absolute URL — construction succeeds
and stores the string as-is, refuting the claim that construction fails
with a configuration error on an invalid absolute URL. -/
theorem C6_counterexample_no_url_validation :
    (mkConfig (some "not-a-url") []).base_url = "not-a-url" ∧
    specIsAbsoluteUrl "not-a-url" = false :=
  ⟨rfl, by decide⟩

/-- C6 amended: Config construction never validates base_url as a URL:
resolution is total and stores whatever string it resolves — explicit or
from the environment — unchanged, valid absolute URL or not. -/
theorem C6_no_url_check (s : String) :
    (mkConfig (some s) []).base_url = s ∧
    (mkConfig none [("HTTPBIN_BASE_URL", s)]).base_url = s :=
  ⟨rfl, by simp [mkConfig, envLookup]⟩

/-- C6 witness: the string not-a-url is stored unchanged both by the
explicit path and by the environment path. -/
theorem C6_no_url_check_witness :
    (mkConfig (some "not-a-url") []).base_url = "not-a-url" ∧
    (mkConfig none [("HTTPBIN_BASE_URL", "not-a-url")]).base_url = "not-a-url" :=
  C6_no_url_check "not-a-url"

/-- C7: for a 200 response whose JSON object body binds origin to the
string 194.39.218.10 — surrounded by arbitrary extra fields, which are
ignored by design — get() returns the Result holding that address, whose
rendering is the original string. -/
theorem C7_happy_path_extra_fields (pre post : List (String × JValue))
    (hpost : ∀ p ∈ post, p.1 ≠ "origin") :
    clientGet (TransportOutcome.responds ⟨200, BodyJson.value
        (JValue.obj (pre ++ ("origin", JValue.str "194.39.218.10") :: post))⟩)
      = GetOutcome.ok ⟨⟨194, 39, 218, 10⟩⟩ ∧
    (⟨194, 39, 218, 10⟩ : IPv4).render = "194.39.218.10" := by
  constructor
  · have hpost0 : lookupField post "origin" = none := lookupField_none _ _ hpost
    have hlook : lookupField (pre ++ ("origin", JValue.str "194.39.218.10") :: post) "origin"
        = some (JValue.str "194.39.218.10") := by
      rw [lookupField_append]
      simp [lookupField, hpost0]
    have hip : parseOrigin (JValue.str "194.39.218.10") = some ⟨194, 39, 218, 10⟩ := rfl
    have hval : getResponseValidate (pre ++ ("origin", JValue.str "194.39.218.10") :: post)
        = Except.ok ⟨⟨194, 39, 218, 10⟩⟩ := by
      simp [getResponseValidate, hlook, hip]
    simp [clientGet, raiseForStatusFails, hval]
  · rfl

/-- C7 witness: the payload of the repository test (args, headers and url
fields around origin) yields the Result 194.39.218.10. -/
theorem C7_happy_path_witness :
    clientGet (TransportOutcome.responds ⟨200, BodyJson.value (JValue.obj
        ([("args", JValue.obj []),
          ("headers", JValue.obj [("Accept", JValue.str "application/json")])] ++
          ("origin", JValue.str "194.39.218.10") ::
          [("url", JValue.str "https://httpbin.org/get")]))⟩)
      = GetOutcome.ok ⟨⟨194, 39, 218, 10⟩⟩ :=
  (C7_happy_path_extra_fields
      [("args", JValue.obj []),
        ("headers", JValue.obj [("Accept", JValue.str "application/json")])]
      [("url", JValue.str "https://httpbin.org/get")]
      (by decide)).1

/-- C8: GetResponse construction is the validation gate: every payload the
validator accepts yields a Result whose origin has four byte-sized octets,
a payload without an origin field is rejected as missing, and a payload
whose origin the IPv4Address validator refuses is rejected as invalid —
so no Result produced by validation is in an invalid state. -/
theorem C8_construction_gate (fields : List (String × JValue)) :
    (∀ r, getResponseValidate fields = Except.ok r → r.origin.validB = true) ∧
    (lookupField fields "origin" = none →
      getResponseValidate fields = Except.error ValErr.missingOrigin) ∧
    (∀ v, lookupField fields "origin" = some v → parseOrigin v = none →
      getResponseValidate fields = Except.error (ValErr.invalidOrigin v)) := by
  refine ⟨?_, ?_, ?_⟩
  · intro r hr
    unfold getResponseValidate at hr
    split at hr
    · exact absurd hr (by simp)
    · split at hr
      · rename_i hip
        cases hr
        exact parseOrigin_valid _ _ hip
      · exact absurd hr (by simp)
  · intro h
    simp [getResponseValidate, h]
  · intro v hv hp
    simp [getResponseValidate, hv, hp]

/-- C8 witness: a dotted-quad origin passes and its octets are bytes; the
empty payload is rejected as missing; the string not-an-ip is rejected as
invalid. -/
theorem C8_construction_gate_witness :
    (⟨⟨194, 39, 218, 10⟩⟩ : GetResponse).origin.validB = true ∧
    getResponseValidate [] = Except.error ValErr.missingOrigin ∧
    getResponseValidate [("origin", JValue.str "not-an-ip")]
      = Except.error (ValErr.invalidOrigin (JValue.str "not-an-ip")) :=
  ⟨(C8_construction_gate [("origin", JValue.str "194.39.218.10")]).1
      ⟨⟨194, 39, 218, 10⟩⟩ rfl,
    (C8_construction_gate []).2.1 rfl,
    (C8_construction_gate [("origin", JValue.str "not-an-ip")]).2.2
      (JValue.str "not-an-ip") rfl rfl⟩

/-- C9: validation is deterministic and idempotent: two constructions from
the same payload that both succeed yield equal Results, and in particular
equal origin strings. -/
theorem C9_validation_deterministic (fields : List (String × JValue))
    (r1 r2 : GetResponse)
    (h1 : getResponseValidate fields = Except.ok r1)
    (h2 : getResponseValidate fields = Except.ok r2) :
    r1 = r2 ∧ r1.origin.render = r2.origin.render := by
  have h : r1 = r2 := Except.ok.inj (h1.symm.trans h2)
  exact ⟨h, by rw [h]⟩

/-- C9 witness: constructing twice from the payload binding origin to
194.39.218.10 yields equal Results with equal origin strings. -/
theorem C9_validation_deterministic_witness :
    (⟨⟨194, 39, 218, 10⟩⟩ : GetResponse) = ⟨⟨194, 39, 218, 10⟩⟩ ∧
    (⟨⟨194, 39, 218, 10⟩⟩ : GetResponse).origin.render
      = (⟨⟨194, 39, 218, 10⟩⟩ : GetResponse).origin.render :=
  C9_validation_deterministic [("origin", JValue.str "194.39.218.10")]
    ⟨⟨194, 39, 218, 10⟩⟩ ⟨⟨194, 39, 218, 10⟩⟩ rfl rfl

end Httpbin
